import Mathlib

/-!
Shallow embedding of the QR Code Camera signaling server
(session pairing / signal-relay state machine from `server.js`).

The registry (`sessions = new Map()`) is modelled as an insertion-ordered
association list, mirroring JS `Map` semantics (`set` keeps the position of
an existing key, otherwise appends; iteration follows insertion order).
Pending `setTimeout` timers are modelled as a separate list of armed timer
keys, one per `create-session`, because a timer object can outlive the
deletion of its session from the map.  Every socket emission is recorded as
a pair of an optional destination handle (`io.to(null)` gets `none`) and a
message.
-/

namespace SignalingServer

abbrev Handle := Nat

abbrev SessionId := Nat

abbrev Payload := Nat

/-- One buffered early signal: `{ targetId, data }` as pushed by the
`signal` handler (`targetId` may be `null` when the desktop signals before
any mobile joined). -/
structure Pending where
  targetId : Option Handle
  data : Payload
  deriving Repr, DecidableEq

/-- The per-session record stored in the `sessions` map by `create-session`.
The JS `timeout` field (the timer object) is modelled outside the record,
in `ServerState.timers`. -/
structure Session where
  desktop : Handle
  mobile : Option Handle
  ready : Bool
  pendingSignals : List Pending
  created : Nat
  deriving Repr, DecidableEq

/-- The outbound socket messages the server emits. -/
inductive Msg where
  | sessionCreated (sessionId : SessionId)
  | sessionNotFound
  | mobileConnected
  | connectionSuccessful
  | signal (payload : Payload)
  | peerDisconnected
  | sessionTimeout
  deriving Repr, DecidableEq

/-- An emission: destination handle (`none` models `io.to(null)`) and message. -/
abbrev Emit := Option Handle × Msg

/-- The `sessions` map, in insertion order. -/
abbrev Registry := List (SessionId × Session)

/-- `sessions.get(sid)` (also covers `sessions.has(sid)` via `isSome`). -/
def mapGet : Registry → SessionId → Option Session
  | [], _ => none
  | (k, v) :: rest, sid => if k = sid then some v else mapGet rest sid

/-- `sessions.set(sid, s)`: replace in place if the key exists, else append. -/
def mapSet : Registry → SessionId → Session → Registry
  | [], sid, s => [(sid, s)]
  | (k, v) :: rest, sid, s =>
      if k = sid then (sid, s) :: rest else (k, v) :: mapSet rest sid s

/-- `sessions.delete(sid)`. -/
def mapDelete : Registry → SessionId → Registry
  | [], _ => []
  | (k, v) :: rest, sid => if k = sid then rest else (k, v) :: mapDelete rest sid

/-- Whole-server state: the session registry plus the armed expiry timers. -/
structure ServerState where
  sessions : Registry
  timers : List SessionId
  deriving Repr, DecidableEq

/-- The `create-session` handler.  `sid` stands for the fresh `uuidv4()`,
`now` for `Date.now()`.  It inserts the new session, arms its expiry timer
and emits `session-created { sessionId }` to the requester. -/
def createSession (st : ServerState) (requester : Handle) (sid : SessionId)
    (now : Nat) : ServerState × List Emit :=
  ({ sessions := mapSet st.sessions sid
       { desktop := requester, mobile := none, ready := false,
         pendingSignals := [], created := now },
     timers := st.timers ++ [sid] },
   [(some requester, Msg.sessionCreated sid)])

/-- The `join-session` handler.  On a known session it clears the timer,
sets `mobile` and `ready`, emits `mobile-connected` to the desktop and
`connection-successful` to the joiner, then flushes every pending signal to
its recorded `targetId` and clears the buffer.  On an unknown session it
emits `session-not-found` to the requester. -/
def joinSession (st : ServerState) (requester : Handle) (sid : SessionId) :
    ServerState × List Emit :=
  match mapGet st.sessions sid with
  | some session =>
      ({ sessions := mapSet st.sessions sid
           { session with mobile := some requester, ready := true, pendingSignals := [] },
         timers := st.timers.erase sid },
       (some session.desktop, Msg.mobileConnected) ::
       (some requester, Msg.connectionSuccessful) ::
       session.pendingSignals.map (fun sig => (sig.targetId, Msg.signal sig.data)))
  | none => (st, [(some requester, Msg.sessionNotFound)])

/-- The `signal` handler.  On a known session it resolves the target as the
other participant (`mobile` if the sender is the desktop, else `desktop`),
buffers the signal while the session is not ready, and otherwise forwards
it when the target is present.  Unknown sessions are a silent no-op. -/
def relaySignal (st : ServerState) (sender : Handle) (sid : SessionId)
    (payload : Payload) : ServerState × List Emit :=
  match mapGet st.sessions sid with
  | some session =>
      let targetId : Option Handle :=
        if sender = session.desktop then session.mobile else some session.desktop
      if session.ready = false then
        let buffered : Pending := { targetId := targetId, data := payload }
        let updated : Session :=
          { session with pendingSignals := session.pendingSignals ++ [buffered] }
        ({ st with sessions := mapSet st.sessions sid updated }, [])
      else
        match targetId with
        | some target => (st, [(some target, Msg.signal payload)])
        | none => (st, [])
  | none => (st, [])

/-- The loop body of the `disconnect` handler: scan the registry in
insertion order; at the first session containing the handle, notify the
other participant when present, delete that session and stop (`break`). -/
def disconnectScan (h : Handle) : Registry → Registry × List Emit
  | [] => ([], [])
  | (sid, session) :: rest =>
      if session.desktop = h ∨ session.mobile = some h then
        (rest,
         match (if h = session.desktop then session.mobile else some session.desktop) with
         | some target => [(some target, Msg.peerDisconnected)]
         | none => [])
      else
        let result := disconnectScan h rest
        ((sid, session) :: result.1, result.2)

/-- The `disconnect` handler.  It never touches the timers. -/
def handleDisconnect (st : ServerState) (h : Handle) : ServerState × List Emit :=
  ({ sessions := (disconnectScan h st.sessions).1, timers := st.timers },
   (disconnectScan h st.sessions).2)

/-- Firing of the expiry timer armed for `sid`: the timer is consumed, then
the callback runs — if the session still exists and has no mobile, it emits
`session-timeout` to the desktop and deletes the session; otherwise it does
nothing. -/
def timerFire (st : ServerState) (sid : SessionId) : ServerState × List Emit :=
  let timers' := st.timers.erase sid
  match mapGet st.sessions sid with
  | some session =>
      if session.mobile = none then
        ({ sessions := mapDelete st.sessions sid, timers := timers' },
         [(some session.desktop, Msg.sessionTimeout)])
      else
        ({ sessions := st.sessions, timers := timers' }, [])
  | none => ({ sessions := st.sessions, timers := timers' }, [])

/-- The inbound events the registry consumes. -/
inductive Event where
  | create (requester : Handle) (sid : SessionId) (now : Nat)
  | join (requester : Handle) (sid : SessionId)
  | signal (sender : Handle) (sid : SessionId) (payload : Payload)
  | disconnect (h : Handle)
  | fire (sid : SessionId)

/-- Dispatch one inbound event to its handler. -/
def stepFn (st : ServerState) : Event → ServerState × List Emit
  | .create r sid now => createSession st r sid now
  | .join r sid => joinSession st r sid
  | .signal sender sid p => relaySignal st sender sid p
  | .disconnect h => handleDisconnect st h
  | .fire sid => timerFire st sid

/-- Environment-level validity of an event: `uuidv4()` never collides with a
live key or armed timer, and a timer only fires while armed. -/
def validEvent (st : ServerState) : Event → Prop
  | .create _ sid _ => mapGet st.sessions sid = none ∧ sid ∉ st.timers
  | .fire sid => sid ∈ st.timers
  | _ => True

/-- The states the server can be in, starting from the empty registry. -/
inductive Reachable : ServerState → Prop where
  | init : Reachable ⟨[], []⟩
  | step (st : ServerState) (e : Event) (hst : Reachable st)
      (hv : validEvent st e) : Reachable (stepFn st e).1

/-! ### Concrete runs (used to instantiate the theorems below) -/

/-- The empty server. -/
def state0 : ServerState := ⟨[], []⟩

/-- After `create-session` from handle 10 (fresh id 0, `Date.now() = 5`). -/
def stateCreated : ServerState := (createSession state0 10 0 5).1

/-- …after handle 20 joined session 0. -/
def stateReady : ServerState := (joinSession stateCreated 20 0).1

/-- …after a second join, from handle 30, on the already-ready session 0. -/
def stateRejoined : ServerState := (joinSession stateReady 30 0).1

/-- After `create-session` from 10 and then 10 disconnecting before any join. -/
def stateOrphan : ServerState := (handleDisconnect stateCreated 10).1

/-- After two pre-join signals on session 0: one from the desktop (10), one
from a third party (99). -/
def stateBuffered : ServerState := (relaySignal (relaySignal stateCreated 10 0 7).1 99 0 8).1

/-- Three sessions in insertion order: 0 created by handle 50, then 1 and 2
both created by handle 10. -/
def stateMixed : ServerState :=
  (createSession (createSession (createSession state0 50 0 5).1 10 1 6).1 10 2 7).1

/-! ### Map lemmas -/

theorem mapGet_mapSet_self (reg : Registry) (sid : SessionId) (s : Session) :
    mapGet (mapSet reg sid s) sid = some s := by
  induction reg with
  | nil => simp [mapSet, mapGet]
  | cons kv rest ih =>
      obtain ⟨k, v⟩ := kv
      by_cases hk : k = sid
      · simp [mapSet, mapGet, hk]
      · simp [mapSet, mapGet, hk, ih]

theorem mem_mapSet {reg : Registry} {sid : SessionId} {s : Session}
    {p : SessionId × Session} (hp : p ∈ mapSet reg sid s) :
    p = (sid, s) ∨ p ∈ reg := by
  induction reg with
  | nil => simpa [mapSet] using hp
  | cons kv rest ih =>
      obtain ⟨k, v⟩ := kv
      by_cases hk : k = sid
      · simp only [mapSet, hk, if_pos] at hp
        rcases List.mem_cons.mp hp with h1 | h1
        · exact Or.inl h1
        · exact Or.inr (List.mem_cons_of_mem _ h1)
      · simp only [mapSet, hk, if_neg, not_false_iff] at hp
        rcases List.mem_cons.mp hp with h1 | h1
        · exact Or.inr (by simp [h1])
        · rcases ih h1 with h2 | h2
          · exact Or.inl h2
          · exact Or.inr (List.mem_cons_of_mem _ h2)

theorem mapGet_mem {reg : Registry} {sid : SessionId} {s : Session}
    (h : mapGet reg sid = some s) : (sid, s) ∈ reg := by
  induction reg with
  | nil => simp [mapGet] at h
  | cons kv rest ih =>
      obtain ⟨k, v⟩ := kv
      by_cases hk : k = sid
      · subst hk
        simp only [mapGet, if_pos] at h
        simp [Option.some.inj h]
      · simp only [mapGet, if_neg, hk, not_false_iff] at h
        exact List.mem_cons_of_mem _ (ih h)

theorem mapGet_eq_none_of_not_mem {reg : Registry} {sid : SessionId}
    (h : sid ∉ reg.map Prod.fst) : mapGet reg sid = none := by
  induction reg with
  | nil => simp [mapGet]
  | cons kv rest ih =>
      obtain ⟨k, v⟩ := kv
      simp only [List.map_cons, List.mem_cons] at h
      push_neg at h
      simp [mapGet, Ne.symm h.1, ih h.2]

theorem not_mem_keys_of_mapGet_none {reg : Registry} {sid : SessionId}
    (h : mapGet reg sid = none) : sid ∉ reg.map Prod.fst := by
  induction reg with
  | nil => simp
  | cons kv rest ih =>
      obtain ⟨k, v⟩ := kv
      by_cases hk : k = sid
      · subst hk; simp [mapGet] at h
      · simp only [mapGet, if_neg hk] at h
        simp [Ne.symm hk, ih h]

theorem keys_mapSet_of_some {reg : Registry} {sid : SessionId} {s : Session}
    (h : mapGet reg sid = some s) (v : Session) :
    (mapSet reg sid v).map Prod.fst = reg.map Prod.fst := by
  induction reg with
  | nil => simp [mapGet] at h
  | cons kv rest ih =>
      obtain ⟨k, w⟩ := kv
      by_cases hk : k = sid
      · subst hk; simp [mapSet]
      · simp only [mapGet, if_neg hk] at h
        simp [mapSet, hk, ih h]

theorem mapSet_of_none {reg : Registry} {sid : SessionId}
    (h : mapGet reg sid = none) (s : Session) :
    mapSet reg sid s = reg ++ [(sid, s)] := by
  induction reg with
  | nil => simp [mapSet]
  | cons kv rest ih =>
      obtain ⟨k, v⟩ := kv
      by_cases hk : k = sid
      · subst hk; simp [mapGet] at h
      · simp only [mapGet, if_neg hk] at h
        simp [mapSet, hk, ih h]

theorem mapDelete_sublist (reg : Registry) (sid : SessionId) :
    List.Sublist (mapDelete reg sid) reg := by
  induction reg with
  | nil => simp [mapDelete]
  | cons kv rest ih =>
      obtain ⟨k, v⟩ := kv
      by_cases hk : k = sid
      · simp [mapDelete, hk]
      · simpa [mapDelete, hk] using List.Sublist.cons₂ (k, v) ih

theorem mapGet_mapDelete_self {reg : Registry} {sid : SessionId}
    (hnd : (reg.map Prod.fst).Nodup) :
    mapGet (mapDelete reg sid) sid = none := by
  induction reg with
  | nil => simp [mapDelete, mapGet]
  | cons kv rest ih =>
      obtain ⟨k, v⟩ := kv
      simp only [List.map_cons, List.nodup_cons] at hnd
      by_cases hk : k = sid
      · subst hk
        simp only [mapDelete, if_pos rfl]
        exact mapGet_eq_none_of_not_mem hnd.1
      · simp [mapDelete, mapGet, hk, ih hnd.2]

theorem disconnectScan_fst_sublist (h : Handle) (reg : Registry) :
    List.Sublist (disconnectScan h reg).1 reg := by
  induction reg with
  | nil => simp [disconnectScan]
  | cons kv rest ih =>
      obtain ⟨k, v⟩ := kv
      by_cases hm : v.desktop = h ∨ v.mobile = some h
      · simp [disconnectScan, hm]
      · simpa [disconnectScan, hm] using List.Sublist.cons₂ (k, v) ih

/-! ### Handler characterization lemmas -/

theorem joinSession_known (st : ServerState) (requester : Handle) (sid : SessionId)
    (session : Session) (hm : mapGet st.sessions sid = some session) :
    joinSession st requester sid =
      ({ sessions := mapSet st.sessions sid
           { session with mobile := some requester, ready := true, pendingSignals := [] },
         timers := st.timers.erase sid },
       (some session.desktop, Msg.mobileConnected) ::
       (some requester, Msg.connectionSuccessful) ::
       session.pendingSignals.map (fun sig => (sig.targetId, Msg.signal sig.data))) := by
  simp [joinSession, hm]

theorem relaySignal_buffer (st : ServerState) (sender : Handle) (sid : SessionId)
    (payload : Payload) (session : Session)
    (hm : mapGet st.sessions sid = some session) (hr : session.ready = false) :
    relaySignal st sender sid payload =
      ({ st with sessions := mapSet st.sessions sid { session with pendingSignals := session.pendingSignals ++ [{ targetId := if sender = session.desktop then session.mobile else some session.desktop, data := payload }] } },
       []) := by
  simp [relaySignal, hm, hr]

theorem relaySignal_ready_fst (st : ServerState) (sender : Handle) (sid : SessionId)
    (payload : Payload) (session : Session)
    (hm : mapGet st.sessions sid = some session) (hr : session.ready = true) :
    (relaySignal st sender sid payload).1 = st := by
  by_cases hd : sender = session.desktop
  · cases hmob : session.mobile with
    | none => simp [relaySignal, hm, hr, hd, hmob]
    | some t => simp [relaySignal, hm, hr, hd, hmob]
  · simp [relaySignal, hm, hr, hd]

theorem disconnectScan_first_match (hdl : Handle) (pre post : Registry)
    (sid : SessionId) (s : Session)
    (hmatch : s.desktop = hdl ∨ s.mobile = some hdl)
    (hpre : ∀ p ∈ pre, ¬(p.2.desktop = hdl ∨ p.2.mobile = some hdl)) :
    disconnectScan hdl (pre ++ (sid, s) :: post) =
      (pre ++ post,
       match (if hdl = s.desktop then s.mobile else some s.desktop) with
       | some target => [(some target, Msg.peerDisconnected)]
       | none => []) := by
  induction pre with
  | nil => simp [disconnectScan, hmatch]
  | cons kv rest ih =>
      have hkv := hpre kv (by simp)
      obtain ⟨k, v⟩ := kv
      have ih' := ih (fun p hp => hpre p (List.mem_cons_of_mem _ hp))
      simp only [List.cons_append, disconnectScan, if_neg hkv]
      rw [show rest.append ((sid, s) :: post) = rest ++ (sid, s) :: post from rfl, ih']

/-! ### Reachability invariants -/

theorem reachable_keys_nodup {st : ServerState} (h : Reachable st) :
    (st.sessions.map Prod.fst).Nodup := by
  induction h with
  | init => simp
  | step st e hst hv ih =>
      cases e with
      | create r sid now =>
          obtain ⟨hfresh, -⟩ := hv
          have hnot := not_mem_keys_of_mapGet_none hfresh
          simp [stepFn, createSession, mapSet_of_none hfresh, List.nodup_append, ih, hnot]
      | join r sid =>
          cases hm : mapGet st.sessions sid with
          | none => simpa [stepFn, joinSession, hm] using ih
          | some session =>
              simpa [stepFn, joinSession, hm, keys_mapSet_of_some hm] using ih
      | signal sender sid p =>
          cases hm : mapGet st.sessions sid with
          | none => simpa [stepFn, relaySignal, hm] using ih
          | some session =>
              by_cases hr : session.ready = true
              · simpa [stepFn, relaySignal_ready_fst st sender sid p session hm hr] using ih
              · have hr' : session.ready = false := by
                  cases hb : session.ready
                  · rfl
                  · exact absurd hb hr
                simpa [stepFn, relaySignal_buffer st sender sid p session hm hr',
                  keys_mapSet_of_some hm] using ih
      | disconnect hdl =>
          exact ((disconnectScan_fst_sublist hdl st.sessions).map Prod.fst).nodup ih
      | fire sid =>
          cases hm : mapGet st.sessions sid with
          | none => simpa [stepFn, timerFire, hm] using ih
          | some session =>
              by_cases hmob : session.mobile = none
              · have hsub := (mapDelete_sublist st.sessions sid).map
                  (f := Prod.fst)
                simpa [stepFn, timerFire, hm, hmob] using hsub.nodup ih
              · simpa [stepFn, timerFire, hm, hmob] using ih

theorem reachable_ready_mobile {st : ServerState} (h : Reachable st) :
    ∀ p ∈ st.sessions, p.2.ready = true → p.2.mobile ≠ none := by
  induction h with
  | init => simp
  | step st e hst hv ih =>
      cases e with
      | create r sid now =>
          intro p hp hr
          simp only [stepFn, createSession] at hp
          rcases mem_mapSet hp with h1 | h1
          · rw [h1] at hr
            simp at hr
          · exact ih p h1 hr
      | join r sid =>
          intro p hp hr
          cases hm : mapGet st.sessions sid with
          | none =>
              simp only [stepFn, joinSession, hm] at hp
              exact ih p hp hr
          | some session =>
              rw [stepFn, joinSession_known st r sid session hm] at hp
              rcases mem_mapSet hp with h1 | h1
              · rw [h1]
                simp
              · exact ih p h1 hr
      | signal sender sid p' =>
          intro p hp hr
          cases hm : mapGet st.sessions sid with
          | none =>
              simp only [stepFn, relaySignal, hm] at hp
              exact ih p hp hr
          | some session =>
              by_cases hrdy : session.ready = true
              · rw [stepFn, relaySignal_ready_fst st sender sid p' session hm hrdy] at hp
                exact ih p hp hr
              · have hr' : session.ready = false := by
                  cases hb : session.ready
                  · rfl
                  · exact absurd hb hrdy
                rw [stepFn, relaySignal_buffer st sender sid p' session hm hr'] at hp
                rcases mem_mapSet hp with h1 | h1
                · rw [h1] at hr
                  simp only at hr
                  rw [hr] at hr'
                  simp at hr'
                · exact ih p h1 hr
      | disconnect hdl =>
          intro p hp hr
          have hsub : (stepFn st (Event.disconnect hdl)).1.sessions.Sublist st.sessions :=
            disconnectScan_fst_sublist hdl st.sessions
          exact ih p (hsub.mem hp) hr
      | fire sid =>
          intro p hp hr
          cases hm : mapGet st.sessions sid with
          | none =>
              simp only [stepFn, timerFire, hm] at hp
              exact ih p hp hr
          | some session =>
              by_cases hmob : session.mobile = none
              · simp only [stepFn, timerFire, hm, hmob, if_pos] at hp
                exact ih p ((mapDelete_sublist st.sessions sid).mem hp) hr
              · simp only [stepFn, timerFire, hm, hmob, if_neg, not_false_iff] at hp
                exact ih p hp hr

/-! ### Claims -/

/-- C1, counterexample: the claim says a second `join-session` on the same
session is rejected or ignored, so `mobileHandle` never changes value.  In
the code the second join is neither rejected nor ignored: after handle 20
joined session 0, a join by handle 30 overwrites `mobile` from 20 to 30 and
even re-emits the success messages. -/
theorem C1_counterexample :
    (mapGet stateReady.sessions 0).map Session.mobile = some (some 20) ∧
    (mapGet stateRejoined.sessions 0).map Session.mobile = some (some 30) ∧
    (joinSession stateReady 30 0).2 =
      [(some 10, Msg.mobileConnected), (some 30, Msg.connectionSuccessful)] := by
  decide

/-- C1 (amended): a `join-session` on any known session unconditionally
sets `mobile` to the new requester (and `ready` to `true`, clearing the
buffer), overwriting any previously attached joiner, so `mobileHandle` may
transition between distinct values. -/
theorem C1_join_overwrites_mobile (st : ServerState) (r : Handle) (sid : SessionId)
    (session : Session) (hm : mapGet st.sessions sid = some session) :
    mapGet (joinSession st r sid).1.sessions sid =
      some { session with mobile := some r, ready := true, pendingSignals := [] } := by
  rw [joinSession_known st r sid session hm]
  exact mapGet_mapSet_self _ _ _

/-- C1, witness: the amended theorem applied to the already-joined session. -/
theorem C1_witness :
    mapGet stateReady.sessions 0 = some ⟨10, some 20, true, [], 5⟩ ∧
    mapGet (joinSession stateReady 30 0).1.sessions 0 = some ⟨10, some 30, true, [], 5⟩ :=
  ⟨by decide,
   by exact C1_join_overwrites_mobile stateReady 30 0 ⟨10, some 20, true, [], 5⟩ (by decide)⟩

/-- C2, counterexample: the claim says the disconnect handler cancels a
still-pending expiry timer of the session it deletes.  In the code there is
no `clearTimeout` on the disconnect path: after `create-session` from 10
(arming timer 0) and 10 disconnecting before any join, session 0 is gone
but timer 0 is still armed. -/
theorem C2_counterexample :
    mapGet stateOrphan.sessions 0 = none ∧ stateOrphan.timers = [0] := by
  decide

/-- C2 (amended): the disconnect handler never cancels any timer — the
armed-timer set is unchanged by it — but when the dangling timer later
fires against an unregistered session id, the existence check makes it a
no-op: the session map is unchanged and nothing is emitted. -/
theorem C2_disconnect_timer (st : ServerState) (hdl : Handle) (sid : SessionId) :
    (handleDisconnect st hdl).1.timers = st.timers ∧
    (mapGet st.sessions sid = none →
      (timerFire st sid).1.sessions = st.sessions ∧ (timerFire st sid).2 = []) := by
  refine ⟨rfl, fun h => ?_⟩
  constructor <;> simp [timerFire, h]

/-- C2, witness: the amended theorem applied to the post-disconnect state. -/
theorem C2_witness :
    mapGet stateOrphan.sessions 0 = none ∧
    ((handleDisconnect stateOrphan 10).1.timers = stateOrphan.timers ∧
     ((timerFire stateOrphan 0).1.sessions = stateOrphan.sessions ∧
      (timerFire stateOrphan 0).2 = [])) :=
  ⟨by decide,
   (C2_disconnect_timer stateOrphan 10 0).1,
   (C2_disconnect_timer stateOrphan 10 0).2 (by decide)⟩

/-- C3: on a known session, `join-session` delivers exactly the buffered
pending signals — each as a `signal{payload}` to the `targetId` recorded
when it was buffered, in the original enqueue order, none duplicated —
right after the two success messages, and leaves `pendingSignals` empty. -/
theorem C3_join_flushes_buffer (st : ServerState) (r : Handle) (sid : SessionId)
    (session : Session) (hm : mapGet st.sessions sid = some session) :
    (joinSession st r sid).2 =
      (some session.desktop, Msg.mobileConnected) ::
      (some r, Msg.connectionSuccessful) ::
      session.pendingSignals.map (fun sig => (sig.targetId, Msg.signal sig.data)) ∧
    (mapGet (joinSession st r sid).1.sessions sid).map Session.pendingSignals = some [] := by
  rw [joinSession_known st r sid session hm]
  refine ⟨rfl, ?_⟩
  rw [mapGet_mapSet_self]
  rfl

/-- C3, witness: joining a session holding two buffered signals (one with a
`null` target, one targeting the desktop) flushes both in order. -/
theorem C3_witness :
    mapGet stateBuffered.sessions 0 = some ⟨10, none, false, [⟨none, 7⟩, ⟨some 10, 8⟩], 5⟩ ∧
    ((joinSession stateBuffered 20 0).2 =
      [(some 10, Msg.mobileConnected), (some 20, Msg.connectionSuccessful),
       (none, Msg.signal 7), (some 10, Msg.signal 8)] ∧
     (mapGet (joinSession stateBuffered 20 0).1.sessions 0).map Session.pendingSignals =
       some []) :=
  ⟨by decide,
   by exact C3_join_flushes_buffer stateBuffered 20 0 ⟨10, none, false, [⟨none, 7⟩, ⟨some 10, 8⟩], 5⟩ (by decide)⟩

/-- C4: a `signal` on a known session with `ready = false` appends the
resolved `(targetId, payload)` to `pendingSignals` and delivers nothing,
with no hypothesis on whether the resolved target is set — buffering is
gated purely on `ready`. -/
theorem C4_preready_buffers (st : ServerState) (sender : Handle) (sid : SessionId)
    (payload : Payload) (session : Session)
    (hm : mapGet st.sessions sid = some session) (hr : session.ready = false) :
    (relaySignal st sender sid payload).2 = [] ∧
    mapGet (relaySignal st sender sid payload).1.sessions sid =
      some { session with pendingSignals := session.pendingSignals ++ [{ targetId := if sender = session.desktop then session.mobile else some session.desktop, data := payload }] } := by
  rw [relaySignal_buffer st sender sid payload session hm hr]
  exact ⟨rfl, mapGet_mapSet_self _ _ _⟩

/-- C4, witness: a third-party sender (99) on the not-ready session 0: the
resolved target (`some 10`) is already set, yet the signal is buffered and
nothing is delivered. -/
theorem C4_witness :
    mapGet stateCreated.sessions 0 = some ⟨10, none, false, [], 5⟩ ∧
    ((⟨10, none, false, [], 5⟩ : Session).ready = false) ∧
    ((relaySignal stateCreated 99 0 7).2 = [] ∧
     mapGet (relaySignal stateCreated 99 0 7).1.sessions 0 =
       some ⟨10, none, false, [⟨some 10, 7⟩], 5⟩) :=
  ⟨by decide, by decide,
   by exact C4_preready_buffers stateCreated 99 0 7 ⟨10, none, false, [], 5⟩ (by decide) (by decide)⟩

/-- C5: in any reachable state, a firing of the expiry timer for a session
that was deleted, or that has transitioned to `ready`, is a no-op — the
session map is unchanged (in particular no session is deleted) and no
message is emitted. -/
theorem C5_stale_timer_noop (st : ServerState) (sid : SessionId)
    (hreach : Reachable st)
    (h : mapGet st.sessions sid = none ∨
      ∃ session, mapGet st.sessions sid = some session ∧ session.ready = true) :
    (timerFire st sid).1.sessions = st.sessions ∧ (timerFire st sid).2 = [] := by
  rcases h with h | ⟨session, hm, hr⟩
  · constructor <;> simp [timerFire, h]
  · have hmob : session.mobile ≠ none :=
      reachable_ready_mobile hreach (sid, session) (mapGet_mem hm) hr
    constructor <;> simp [timerFire, hm, hmob]

/-- C5, witness: the reachable state where session 0 became ready — a stale
firing of its timer deletes nothing and emits nothing. -/
theorem C5_witness :
    Reachable stateReady ∧
    mapGet stateReady.sessions 0 = some ⟨10, some 20, true, [], 5⟩ ∧
    ((timerFire stateReady 0).1.sessions = stateReady.sessions ∧
     (timerFire stateReady 0).2 = []) := by
  have hcreated : Reachable stateCreated :=
    Reachable.step state0 (Event.create 10 0 5) Reachable.init ⟨by decide, by decide⟩
  have hready : Reachable stateReady :=
    Reachable.step stateCreated (Event.join 20 0) hcreated trivial
  exact ⟨hready, by decide,
    C5_stale_timer_noop stateReady 0 hready
      (Or.inr ⟨⟨10, some 20, true, [], 5⟩, by decide, rfl⟩)⟩

/-- C6: a disconnect of a handle belonging to a session (as desktop or as
mobile, in `created` or `ready` state) deletes exactly that session — the
first match in insertion order, the scan stopping there — and delivers
exactly one `peer-disconnected` to the other participant's handle when it
is present, zero when it is absent. -/
theorem C6_disconnect_cleanup (pre post : Registry) (sid : SessionId) (s : Session)
    (hdl : Handle) (tms : List SessionId)
    (hmatch : s.desktop = hdl ∨ s.mobile = some hdl)
    (hpre : ∀ p ∈ pre, ¬(p.2.desktop = hdl ∨ p.2.mobile = some hdl)) :
    handleDisconnect ⟨pre ++ (sid, s) :: post, tms⟩ hdl =
      (⟨pre ++ post, tms⟩,
       match (if hdl = s.desktop then s.mobile else some s.desktop) with
       | some target => [(some target, Msg.peerDisconnected)]
       | none => []) := by
  rw [handleDisconnect]
  rw [show (⟨pre ++ (sid, s) :: post, tms⟩ : ServerState).sessions = pre ++ (sid, s) :: post from rfl]
  rw [disconnectScan_first_match hdl pre post sid s hmatch hpre]

/-- C6, witness: the desktop (10) of the ready session 0 disconnects — the
session is removed and its mobile (20) gets one `peer-disconnected`. -/
theorem C6_witness :
    ((⟨10, some 20, true, [], 5⟩ : Session).desktop = 10 ∨
     (⟨10, some 20, true, [], 5⟩ : Session).mobile = some 10) ∧
    handleDisconnect ⟨[(0, ⟨10, some 20, true, [], 5⟩)], []⟩ 10 =
      (⟨[], []⟩, [(some 20, Msg.peerDisconnected)]) :=
  ⟨by decide,
   by exact C6_disconnect_cleanup [] [] 0 ⟨10, some 20, true, [], 5⟩ 10 [] (by decide) (by decide)⟩

/-- C7: for an unknown session id, `join-session` emits `session-not-found`
to the requester and changes nothing, and `signal` is a silent no-op — no
state change, no emission — in both cases the whole state is unchanged. -/
theorem C7_unknown_session (st : ServerState) (r sender : Handle) (sid : SessionId)
    (payload : Payload) (h : mapGet st.sessions sid = none) :
    joinSession st r sid = (st, [(some r, Msg.sessionNotFound)]) ∧
    relaySignal st sender sid payload = (st, []) := by
  constructor <;> simp [joinSession, relaySignal, h]

/-- C7, witness: id 3 was never registered. -/
theorem C7_witness :
    mapGet state0.sessions 3 = none ∧
    (joinSession state0 20 3 = (state0, [(some 20, Msg.sessionNotFound)]) ∧
     relaySignal state0 10 3 7 = (state0, [])) :=
  ⟨by decide, by exact C7_unknown_session state0 20 10 3 7 (by decide)⟩

/-- C8: in any reachable state, when the expiry timer of a still-unjoined
session fires, the desktop receives `session-timeout` and the session is
deleted — its identifier is unknown to subsequent lookups. -/
theorem C8_timeout_expiry (st : ServerState) (sid : SessionId) (session : Session)
    (hreach : Reachable st) (hm : mapGet st.sessions sid = some session)
    (hmob : session.mobile = none) :
    (timerFire st sid).2 = [(some session.desktop, Msg.sessionTimeout)] ∧
    mapGet (timerFire st sid).1.sessions sid = none := by
  have hnd := reachable_keys_nodup hreach
  constructor
  · simp [timerFire, hm, hmob]
  · simp [timerFire, hm, hmob, mapGet_mapDelete_self hnd]

/-- C8, witness: session 0, created by 10 and never joined, times out. -/
theorem C8_witness :
    mapGet stateCreated.sessions 0 = some ⟨10, none, false, [], 5⟩ ∧
    ((timerFire stateCreated 0).2 = [(some 10, Msg.sessionTimeout)] ∧
     mapGet (timerFire stateCreated 0).1.sessions 0 = none) := by
  have hcreated : Reachable stateCreated :=
    Reachable.step state0 (Event.create 10 0 5) Reachable.init ⟨by decide, by decide⟩
  exact ⟨by decide,
    by exact C8_timeout_expiry stateCreated 0 ⟨10, none, false, [], 5⟩ hcreated (by decide) rfl⟩

/-- C9: a `signal` whose sender is neither the session's desktop nor its
mobile resolves the target exactly as a mobile sender would — to the
desktop — so the third party's payload is buffered toward the desktop while
not ready, and delivered to the desktop when ready. -/
theorem C9_third_party_as_mobile (st : ServerState) (sender : Handle) (sid : SessionId)
    (payload : Payload) (session : Session)
    (hm : mapGet st.sessions sid = some session)
    (hd : sender ≠ session.desktop) (_hmb : session.mobile ≠ some sender) :
    (session.ready = false →
      (relaySignal st sender sid payload).2 = [] ∧
      mapGet (relaySignal st sender sid payload).1.sessions sid =
        some { session with pendingSignals := session.pendingSignals ++ [{ targetId := some session.desktop, data := payload }] }) ∧
    (session.ready = true →
      relaySignal st sender sid payload = (st, [(some session.desktop, Msg.signal payload)])) := by
  constructor
  · intro hr
    rw [relaySignal_buffer st sender sid payload session hm hr]
    refine ⟨rfl, ?_⟩
    rw [mapGet_mapSet_self]
    simp [hd]
  · intro hr
    simp [relaySignal, hm, hr, hd]

/-- C9, witness: third-party handle 99 signals on the ready session 0
(desktop 10, mobile 20): the payload is delivered to the desktop. -/
theorem C9_witness :
    mapGet stateReady.sessions 0 = some ⟨10, some 20, true, [], 5⟩ ∧
    (99 ≠ (⟨10, some 20, true, [], 5⟩ : Session).desktop) ∧
    ((⟨10, some 20, true, [], 5⟩ : Session).mobile ≠ some 99) ∧
    relaySignal stateReady 99 0 7 = (stateReady, [(some 10, Msg.signal 7)]) :=
  ⟨by decide, by decide, by decide,
   (C9_third_party_as_mobile stateReady 99 0 7 ⟨10, some 20, true, [], 5⟩ (by decide) (by decide) (by decide)).2 rfl⟩

/-- C10: `create-session` has no per-handle restriction — with a fresh id
it appends a new session and emits `session-created` whatever the requester
already is elsewhere — so one handle can be the desktop of several live
sessions; and a single disconnect of that handle deletes exactly one
session, the first one of the handle in the registry's insertion order
(whatever sessions of other clients precede it), leaving every other
session — the preceding ones and the handle's later ones alike —
registered. -/
theorem C10_no_handle_restriction (st : ServerState) (a : Handle) (sid : SessionId)
    (now : Nat) (hfresh : mapGet st.sessions sid = none) :
    ((createSession st a sid now).1.sessions =
        st.sessions ++ [(sid, { desktop := a, mobile := none, ready := false, pendingSignals := [], created := now })] ∧
     (createSession st a sid now).2 = [(some a, Msg.sessionCreated sid)]) ∧
    (∀ pre rest sid1 s1, st.sessions = pre ++ (sid1, s1) :: rest →
      (∀ p ∈ pre, ¬(p.2.desktop = a ∨ p.2.mobile = some a)) →
      (s1.desktop = a ∨ s1.mobile = some a) →
      (handleDisconnect st a).1.sessions = pre ++ rest) := by
  constructor
  · exact ⟨by simp [createSession, mapSet_of_none hfresh], rfl⟩
  · intro pre rest sid1 s1 hsess hpre hmatch
    simp only [handleDisconnect, hsess,
      disconnectScan_first_match a pre rest sid1 s1 hmatch hpre]

/-- C10, witness: handle 10, already the desktop of session 1, creates
session 2, while a session of another client (50) sits first in the
registry; a single disconnect of 10 then removes only session 1 — the
first of 10's sessions in insertion order — and sessions 0 and 2 both
survive. -/
theorem C10_witness :
    mapGet stateMixed.sessions 3 = none ∧
    ((createSession stateMixed 10 3 8).1.sessions =
        stateMixed.sessions ++ [(3, ⟨10, none, false, [], 8⟩)] ∧
     (createSession stateMixed 10 3 8).2 = [(some 10, Msg.sessionCreated 3)]) ∧
    stateMixed.sessions =
      [(0, ⟨50, none, false, [], 5⟩)] ++ (1, ⟨10, none, false, [], 6⟩) :: [(2, ⟨10, none, false, [], 7⟩)] ∧
    (handleDisconnect stateMixed 10).1.sessions =
      [(0, ⟨50, none, false, [], 5⟩)] ++ [(2, ⟨10, none, false, [], 7⟩)] :=
  ⟨by decide,
   by exact (C10_no_handle_restriction stateMixed 10 3 8 (by decide)).1,
   by decide,
   by exact (C10_no_handle_restriction stateMixed 10 3 8 (by decide)).2 [(0, ⟨50, none, false, [], 5⟩)] [(2, ⟨10, none, false, [], 7⟩)] 1 ⟨10, none, false, [], 6⟩ (by decide) (by decide) (by decide)⟩

end SignalingServer
